import Mathlib

/-
Verification of the Meetup event downloader
(src/downloader/sd_openevents_within_radius.py) against its specification.

The script is Python 2.  The embedding below models:
  - get_categories            (lines 46-55)
  - the per-page retry loop   (lines 82-105)
  - the pagination loop       (lines 78-152), including the rate-limit check
  - the event flattening      (lines 111-143)
  - the main driver           (lines 57-153)

Modelling conventions:
  - HTTP responses are records carrying the status code, the result of
    response.json() as an Option (none = the body is not valid JSON, so
    response.json() raises ValueError), and the three rate-limit headers
    as strings (the requests library exposes header values as strings).
  - Latitude/longitude, ids and counts that the script only copies into the
    output row are carried as strings (the script passes every field through
    unicode() before joining; none of the claims do arithmetic on them).
  - Local-time rendering done by datetime.fromtimestamp (age in days,
    weekday name, hour, strftime) depends on the ambient clock and timezone,
    which the spec itself flags as ambiguous; it is abstracted as a TimeEnv
    of functions of the epoch-seconds value.  The division of the raw
    millisecond timestamp by 1000 (Python 2 long floor division) is embedded
    concretely.
  - exit(status) terminates the process, EXCEPT at line 96 where it is
    executed inside the try block: there SystemExit is caught by the bare
    except clause at line 101, so the loop retries instead.  The embedding
    reproduces this.
  - A raised-and-uncaught exception (ValueError from response.json() in
    get_categories, or the TypeError that time.sleep(str + 0.1) would raise)
    is modelled as a distinct crash outcome.
-/

namespace Meetup

/-- A Python value, as far as the header comparison at line 149 needs:
requests header values are strings, and they are compared with == against
the integer 0.  Python equality between a str and an int is False. -/
inductive PyVal where
  | str (s : String)
  | int (n : Int)

/-- Python == restricted to the value forms above: equal only when the types
agree and the contents agree; a str never equals an int. -/
def pyEq : PyVal → PyVal → Bool
  | PyVal.str a, PyVal.str b => a == b
  | PyVal.int a, PyVal.int b => a == b
  | _, _ => false

/-- num_request_attempts = 3 (line 37). -/
def num_request_attempts : Nat := 3

/-- per_page = 200 (line 40). -/
def per_page : Nat := 200

/-- One category record from the categories endpoint: id and display name. -/
structure Category where
  id : Nat
  name : String
deriving Repr, DecidableEq

/-- The JSON body of a categories response: the details field (read on
error) and the results list (read on success). -/
structure CatBody where
  details : String
  results : List Category
deriving Repr, DecidableEq

/-- A response to the categories request: status code and the outcome of
response.json() — none when the body is not valid JSON. -/
structure CatResponse where
  status : Nat
  body : Option CatBody
deriving Repr, DecidableEq

/-- Result of get_categories: return the records, or terminate the process
via exit(status) after printing the detail, or crash with an uncaught
ValueError from response.json(). -/
inductive CatResult where
  | ok (cats : List Category)
  | exitWith (code : Nat) (details : String)
  | valueError
deriving Repr, DecidableEq

/-- get_categories (lines 46-55).  Note the order in the source: the body is
parsed by response.json() at line 50 BEFORE the status check at line 51, so
a non-JSON body raises ValueError no matter what the status is. -/
def get_categories (r : CatResponse) : CatResult :=
  match r.body with
  | none => CatResult.valueError
  | some data =>
    if r.status ≠ 200 then CatResult.exitWith r.status data.details
    else CatResult.ok data.results

/-- A venue on an event record: its coordinates. -/
structure Venue where
  lat : String
  lon : String
deriving Repr, DecidableEq

/-- The group nested inside an event record.  created is the creation
timestamp in milliseconds; group_lat/group_lon are the fallback
coordinates. -/
structure Group where
  created : Int
  name : String
  id : String
  group_lat : String
  group_lon : String
deriving Repr, DecidableEq

/-- One event record as returned by the events endpoint.  venue is present
exactly when the record has a venue key (line 123); status is present
exactly when the record has a status key (line 134). -/
structure Event where
  group : Group
  venue : Option Venue
  waitlist_count : String
  yes_rsvp_count : String
  time : Int
  name : String
  id : String
  status : Option String
deriving Repr, DecidableEq

/-- The meta object of an events response: count of events on the page and
the grand total. -/
structure Meta where
  count : Nat
  total_count : Nat
deriving Repr, DecidableEq

/-- The JSON body of an events response. -/
structure EventsBody where
  meta : Meta
  results : List Event
  details : String
deriving Repr, DecidableEq

/-- One HTTP response to an events-page request: status code, the outcome
of response.json() (none = not valid JSON, so response.json() raises
ValueError), and the three rate-limit headers, which requests exposes as
strings. -/
structure HttpResponse where
  status : Nat
  body : Option EventsBody
  rlLimit : String
  rlRemaining : String
  rlReset : String
deriving Repr, DecidableEq

/-- The locale/timezone-dependent part of the flattening, as functions of
the epoch-seconds timestamp: (datetime.datetime.today() - created).days,
calendar.day_name[t.weekday()], t.hour, and t.strftime("%Y-%m-%d %H:%M").
The spec (section 9) itself notes that the date handling of the original is
timezone-ambiguous, so these are parameters of the model; no claim
constrains their values. -/
structure TimeEnv where
  ageDays : Int → Int
  dayName : Int → String
  hourOfDay : Int → Int
  fmtDT : Int → String

/-- Models s.replace(",", ";") for the single-character pattern used by the
script: every comma character becomes a semicolon. -/
def replaceCommas (s : String) : String :=
  String.mk (s.data.map fun c => if c == ',' then ';' else c)

/-- The event flattening (lines 111-142): one event record plus the
enclosing category name and the event_status of the request, to the list of
14 fields that get comma-joined into one output row.  Division of the raw
millisecond timestamps by 1000 is Python 2 long floor division. -/
def flattenEvent (env : TimeEnv) (catName : String) (event_status : String)
    (e : Event) : List String :=
  let group := e.group
  let group_age_days := env.ageDays (Int.fdiv group.created 1000)
  let t := Int.fdiv e.time 1000
  let event_day_of_week := env.dayName t
  let event_hour_of_day := env.hourOfDay t
  let event_datetime := env.fmtDT t
  -- venue coordinates when the event has a venue key, else group fallback
  let latlon : String × String :=
    match e.venue with
    | some venue => (venue.lat, venue.lon)
    | none => (group.group_lat, group.group_lon)
  -- status from the event when present, else the requested event_status
  let event_status2 :=
    match e.status with
    | some s => s
    | none => event_status
  [catName, toString group_age_days, replaceCommas group.name, group.id,
   latlon.1, latlon.2, e.waitlist_count, e.yes_rsvp_count,
   event_day_of_week, toString event_hour_of_day, event_datetime,
   replaceCommas e.name, e.id, event_status2]

/-- How the inner while loop at lines 84-102 ended: broke out at line 97
with the parsed data and the value of retry, or ran the condition down with
retry = num_request_attempts (the last response seen is attempts (i-1)). -/
inductive BreakInfo where
  | broke (retry : Nat) (response : HttpResponse) (data : EventsBody)
  | exhausted (lastStatus : Nat)
deriving Repr, DecidableEq

/-- The inner retry loop (lines 83-102).  remaining = num_request_attempts
minus the attempts already made; i counts the attempts already made, so the
current attempt is attempts i and the code variable retry equals i + 1
after the increment at line 85.
  - status 500: print, sleep 10 seconds, loop (lines 89-91);
  - body not JSON: response.json() raises ValueError, caught at line 98, loop;
  - status neither 500 nor 200, JSON body: the detail is printed and
    exit(status) at line 96 raises SystemExit INSIDE the try block, which
    the bare except at line 101 catches, so the loop continues;
  - status 200, JSON body: break at line 97 with the data. -/
def retryLoopAux (attempts : Nat → HttpResponse) : Nat → Nat → BreakInfo
  | 0, i => BreakInfo.exhausted (attempts (i - 1)).status
  | remaining + 1, i =>
    let response := attempts i
    if response.status == 500 then
      retryLoopAux attempts remaining (i + 1)
    else
      match response.body with
      | none => retryLoopAux attempts remaining (i + 1)
      | some data =>
        if response.status ≠ 200 then
          retryLoopAux attempts remaining (i + 1)
        else
          BreakInfo.broke (i + 1) response data

/-- Entry point of the retry loop with the full attempt budget. -/
def runRetryLoop (attempts : Nat → HttpResponse) : BreakInfo :=
  retryLoopAux attempts num_request_attempts 0

/-- The outcome of one page request after the retry loop and the check at
lines 103-105: either the successful response with its parsed data, or
process termination via exit(response.status_code). -/
inductive PageResult where
  | ok (response : HttpResponse) (data : EventsBody)
  | exitWith (code : Nat)
deriving Repr, DecidableEq

/-- One page request with retries (lines 83-105).  After the loop, line 103
tests retry >= num_request_attempts and if so exits with the status code of
the last response — note this fires even when the loop broke out
successfully on the final attempt (retry = num_request_attempts). -/
def requestWithRetry (attempts : Nat → HttpResponse) : PageResult :=
  match runRetryLoop attempts with
  | BreakInfo.broke retry response data =>
    if num_request_attempts ≤ retry then PageResult.exitWith response.status
    else PageResult.ok response data
  | BreakInfo.exhausted lastStatus => PageResult.exitWith lastStatus

/-- Models the guard at line 149: response.headers["X-RateLimit-Remaining"]
== 0.  The header value is a string and 0 is an int, so this is Python
cross-type equality. -/
def rateLimitHit (remaining : String) : Bool :=
  pyEq (PyVal.str remaining) (PyVal.int 0)

/-- One output line for one event (lines 140-143): the 14 fields joined
with commas, then the newline written by the second write call. -/
def rowLine (env : TimeEnv) (catName event_status : String) (e : Event) : String :=
  String.intercalate "," (flattenEvent env catName event_status e) ++ "\n"

/-- The lines written for one successful page: one row per event in
data.results, in order (the for loop at line 111). -/
def pageLines (env : TimeEnv) (catName event_status : String)
    (data : EventsBody) : List String :=
  data.results.map (rowLine env catName event_status)

/-- Outcome of the pagination loop for one (category, event_status) pair.
Each constructor carries the list of offsets at which page requests were
issued and the output lines written.
  - finished: the while condition downloaded < total became false;
  - exited: exit(status) was reached at line 96-is-unreachable/105;
  - typeErrorCrash: the rate-limit guard was taken and
    time.sleep(headers["X-RateLimit-Reset"] + 0.1) raised an uncaught
    TypeError (str + float);
  - outOfFuel: the model ran out of fuel (the loop did not terminate within
    the given number of iterations). -/
inductive LoopOutcome where
  | finished (offsets : List Nat) (lines : List String)
  | exited (code : Nat) (offsets : List Nat) (lines : List String)
  | typeErrorCrash (offsets : List Nat) (lines : List String)
  | outOfFuel (offsets : List Nat) (lines : List String)
deriving Repr, DecidableEq

/-- Prepend the offset and lines of the current page onto the outcome of
the rest of the loop. -/
def consOutcome (off : Nat) (ls : List String) : LoopOutcome → LoopOutcome
  | LoopOutcome.finished offs lines => LoopOutcome.finished (off :: offs) (ls ++ lines)
  | LoopOutcome.exited c offs lines => LoopOutcome.exited c (off :: offs) (ls ++ lines)
  | LoopOutcome.typeErrorCrash offs lines => LoopOutcome.typeErrorCrash (off :: offs) (ls ++ lines)
  | LoopOutcome.outOfFuel offs lines => LoopOutcome.outOfFuel (off :: offs) (ls ++ lines)

/-- The pagination loop for one (category, event_status) pair
(lines 78-152), fuel-bounded.  net gives, for each offset, the sequence of
responses the attempts at that offset receive.  The loop state is the
offset, the downloaded counter and the total, initialised 0, 0, 1 at
lines 78-80.  After a successful page: offset += 1, downloaded +=
data.meta.count, total = data.meta.total_count, the rows are written, and
the rate-limit guard is evaluated before the next iteration. -/
def paginateAux (env : TimeEnv) (cat : Category) (event_status : String)
    (net : Nat → Nat → HttpResponse) :
    Nat → Nat → Nat → Nat → LoopOutcome
  | 0, _, _, _ => LoopOutcome.outOfFuel [] []
  | fuel + 1, offset, downloaded, total =>
    if downloaded < total then
      match requestWithRetry (net offset) with
      | PageResult.exitWith code => LoopOutcome.exited code [offset] []
      | PageResult.ok response data =>
        if rateLimitHit response.rlRemaining then
          LoopOutcome.typeErrorCrash [offset] (pageLines env cat.name event_status data)
        else
          consOutcome offset (pageLines env cat.name event_status data)
            (paginateAux env cat event_status net fuel (offset + 1)
              (downloaded + data.meta.count) data.meta.total_count)
    else
      LoopOutcome.finished [] []

/-- The pagination loop from its initial state offset = 0, downloaded = 0,
total = 1. -/
def paginate (env : TimeEnv) (cat : Category) (event_status : String)
    (net : Nat → Nat → HttpResponse) (fuel : Nat) : LoopOutcome :=
  paginateAux env cat event_status net fuel 0 0 1

/-- The offsets at which page requests were issued, from a loop outcome. -/
def offsetsOf : LoopOutcome → List Nat
  | LoopOutcome.finished offs _ => offs
  | LoopOutcome.exited _ offs _ => offs
  | LoopOutcome.typeErrorCrash offs _ => offs
  | LoopOutcome.outOfFuel offs _ => offs

/-- The output lines written, from a loop outcome. -/
def linesOf : LoopOutcome → List String
  | LoopOutcome.finished _ lines => lines
  | LoopOutcome.exited _ _ lines => lines
  | LoopOutcome.typeErrorCrash _ lines => lines
  | LoopOutcome.outOfFuel _ lines => lines

/-- Result of the whole main routine.  lines is the content of events.csv
as a list of written strings.  valueErrorCrash is the uncaught ValueError
from get_categories, which happens before the file is opened. -/
inductive RunResult where
  | done (lines : List String)
  | exited (code : Nat) (lines : List String)
  | typeErrorCrash (lines : List String)
  | valueErrorCrash
  | outOfFuel (lines : List String)
deriving Repr, DecidableEq

/-- Prepend already-written lines onto the result of the rest of the run. -/
def prependLines (ls : List String) : RunResult → RunResult
  | RunResult.done lines => RunResult.done (ls ++ lines)
  | RunResult.exited c lines => RunResult.exited c (ls ++ lines)
  | RunResult.typeErrorCrash lines => RunResult.typeErrorCrash (ls ++ lines)
  | RunResult.valueErrorCrash => RunResult.valueErrorCrash
  | RunResult.outOfFuel lines => RunResult.outOfFuel (ls ++ lines)

/-- The two time statuses iterated at line 68. -/
def statuses : List String := ["past", "upcoming"]

/-- The (category, event_status) pairs in the order the nested loops at
lines 66-68 visit them. -/
def pairsOf (cats : List Category) : List (Category × String) :=
  cats.flatMap fun c => statuses.map fun st => (c, st)

/-- The nested category/status loops (lines 66-152).  net is indexed by
category id, event_status, offset and attempt number. -/
def runLoop (env : TimeEnv) (net : Nat → String → Nat → Nat → HttpResponse)
    (fuel : Nat) : List (Category × String) → RunResult
  | [] => RunResult.done []
  | (cat, st) :: rest =>
    match paginate env cat st (net cat.id st) fuel with
    | LoopOutcome.finished _ lines => prependLines lines (runLoop env net fuel rest)
    | LoopOutcome.exited code _ lines => RunResult.exited code lines
    | LoopOutcome.typeErrorCrash _ lines => RunResult.typeErrorCrash lines
    | LoopOutcome.outOfFuel _ lines => RunResult.outOfFuel lines

/-- The header row written once at line 63, copied verbatim from the
source. -/
def header : String :=
  "group_category,group_age_days,group.name,group.id,lat,lon,event.waitlist_count,event.yes_rsvp_count,event_day_of_week,event_hour_of_day,event_datetime,event.name,event.id,event.status\n"

/-- The 14 column names of the header row. -/
def headerFields : List String :=
  ["group_category", "group_age_days", "group.name", "group.id", "lat",
   "lon", "event.waitlist_count", "event.yes_rsvp_count",
   "event_day_of_week", "event_hour_of_day", "event_datetime",
   "event.name", "event.id", "event.status"]

/-- The main routine (lines 57-153): fetch the categories (terminating or
crashing on failure, before the output file is opened), open the file and
write the header once, run the nested loops, then print DONE! and return
with exit code 0. -/
def main (env : TimeEnv) (catResp : CatResponse)
    (net : Nat → String → Nat → Nat → HttpResponse) (fuel : Nat) : RunResult :=
  match get_categories catResp with
  | CatResult.valueError => RunResult.valueErrorCrash
  | CatResult.exitWith code _ => RunResult.exited code []
  | CatResult.ok cats => prependLines [header] (runLoop env net fuel (pairsOf cats))

/-- The page count the retry machinery delivers for offset i, 0 when the
request does not succeed (only used where success is known). -/
def pageCount (net : Nat → Nat → HttpResponse) (i : Nat) : Nat :=
  match requestWithRetry (net i) with
  | PageResult.ok _ data => data.meta.count
  | PageResult.exitWith _ => 0

/-- The total_count the retry machinery delivers for offset i, 0 when the
request does not succeed. -/
def pageTotal (net : Nat → Nat → HttpResponse) (i : Nat) : Nat :=
  match requestWithRetry (net i) with
  | PageResult.ok _ data => data.meta.total_count
  | PageResult.exitWith _ => 0

/-- The value of the downloaded counter after k successful pages. -/
def downloadedAfter (net : Nat → Nat → HttpResponse) : Nat → Nat
  | 0 => 0
  | k + 1 => downloadedAfter net k + pageCount net k

/-- The value of the total variable after k successful pages: initialised
to 1 at line 80, then the total_count of the last page. -/
def totalAfter (net : Nat → Nat → HttpResponse) : Nat → Nat
  | 0 => 1
  | k + 1 => pageTotal net k

/-- A CSV data row: 14 fields joined with commas, newline-terminated. -/
def IsRow14 (l : String) : Prop :=
  ∃ fields : List String, fields.length = 14 ∧
    l = String.intercalate "," fields ++ "\n"

/-- The output lines of a run result, i.e. the content of events.csv
(empty for the categories ValueError crash, which happens before the file
is opened). -/
def runLines : RunResult → List String
  | RunResult.done lines => lines
  | RunResult.exited _ lines => lines
  | RunResult.typeErrorCrash lines => lines
  | RunResult.valueErrorCrash => []
  | RunResult.outOfFuel lines => lines

/-- Whether a pagination outcome is normal completion of the loop. -/
def isFinished : LoopOutcome → Bool
  | LoopOutcome.finished _ _ => true
  | _ => false

/-- Whether a pagination outcome is fuel exhaustion of the model (the
loop did not terminate within the allotted iterations). -/
def isOutOfFuel : LoopOutcome → Bool
  | LoopOutcome.outOfFuel _ _ => true
  | _ => false

/- Concrete fixtures used to evaluate the model at specific inputs. -/

/-- A time environment with constant renderings; the claims never
constrain the locale-dependent values. -/
def env0 : TimeEnv :=
  ⟨fun _ => 0, fun _ => "Monday", fun _ => 0, fun _ => "2016-12-10 00:00"⟩

/-- A single category as in the spec end-to-end example. -/
def cat0 : Category := ⟨1, "Tech"⟩

/-- A successful categories response listing cat0. -/
def catRespOK : CatResponse := ⟨200, some ⟨"", [cat0]⟩⟩

/-- An events body with no results and meta counts 0/0. -/
def emptyBody : EventsBody := ⟨⟨0, 0⟩, [], ""⟩

/-- An HTTP 500 response; per the source comment at line 88, Internal
Server Error responses do not contain JSON. -/
def resp500 : HttpResponse := ⟨500, none, "30", "29", "3600"⟩

/-- A successful empty-page response with plenty of rate limit left. -/
def resp200 : HttpResponse := ⟨200, some emptyBody, "30", "29", "3600"⟩

/-- A 404 response with a JSON error body. -/
def resp404 : HttpResponse := ⟨404, some ⟨⟨0, 0⟩, [], "Not Found"⟩, "30", "29", "3600"⟩

/-- Attempt sequence for the retry-budget scenario: two HTTP 500
responses, then an HTTP 200 response with a valid JSON body. -/
def c1Attempts : Nat → HttpResponse := fun i => if i < 2 then resp500 else resp200

/-- A network where every page request sees the c1Attempts sequence. -/
def c1Net : Nat → String → Nat → Nat → HttpResponse := fun _ _ _ a => c1Attempts a

/-- An events body reporting one event on the page out of two in total
(results list empty: the claims this serves only use the counters). -/
def body12 : EventsBody := ⟨⟨1, 2⟩, [], ""⟩

/-- First page of the rate-limit scenario: success, X-RateLimit-Remaining
is the string "0" and X-RateLimit-Reset is the string "5". -/
def c2Resp1 : HttpResponse := ⟨200, some body12, "30", "0", "5"⟩

/-- Second page of the rate-limit scenario: success with quota left. -/
def c2Resp2 : HttpResponse := ⟨200, some body12, "30", "29", "3600"⟩

/-- Network for the rate-limit scenario: offset 0 answers with remaining
"0", later offsets with quota left; every attempt succeeds. -/
def c2Net : Nat → Nat → HttpResponse := fun off _ => if off = 0 then c2Resp1 else c2Resp2

/-- Attempt sequence for the swallowed-exit scenario: a 404 with a JSON
body, then a 200. -/
def c3Attempts : Nat → HttpResponse := fun i => if i = 0 then resp404 else resp200

/-- A network where every page request sees the c3Attempts sequence. -/
def c3Net : Nat → String → Nat → Nat → HttpResponse := fun _ _ _ a => c3Attempts a

/-- A network whose every request succeeds, reporting 1 event per page and
2 in total. -/
def c6Net : Nat → Nat → HttpResponse := fun _ _ => ⟨200, some body12, "30", "29", "3600"⟩

/-- An events body whose page is empty and whose reported grand total is 0. -/
def c9Body : EventsBody := ⟨⟨0, 0⟩, [], ""⟩

/-- The response carrying c9Body. -/
def c9Resp : HttpResponse := ⟨200, some c9Body, "30", "29", "3600"⟩

/-- A network whose every request succeeds with total_count = 0. -/
def c9Net : Nat → Nat → HttpResponse := fun _ _ => c9Resp

/-- An events body reporting zero events on the page but five in total. -/
def c10ZeroBody : EventsBody := ⟨⟨0, 5⟩, [], ""⟩

/-- A network whose every request succeeds with count 0 and total 5. -/
def c10ZeroNet : Nat → Nat → HttpResponse := fun _ _ => ⟨200, some c10ZeroBody, "30", "29", "3600"⟩

/-- A network whose every attempt is resp200: every page reports count 0
and total 0, so every (category, status) pair downloads one empty page. -/
def doneNet : Nat → String → Nat → Nat → HttpResponse := fun _ _ _ _ => resp200

/-- A venue with concrete coordinates. -/
def venue0 : Venue := ⟨"1.5", "2.5"⟩

/-- A group with the fallback coordinates of the spec example. -/
def group0 : Group := ⟨1481328000000, "SD Group", "42", "32.95", "-117.10"⟩

/-- An event that has a venue key. -/
def evWithVenue : Event :=
  ⟨group0, some venue0, "0", "3", 1481328000000, "Ev", "7", some "past"⟩

/-- An event without a venue key. -/
def evNoVenue : Event :=
  ⟨group0, none, "0", "3", 1481328000000, "Ev", "7", some "past"⟩

/-- An event whose name contains an embedded comma, as in the spec
example. -/
def evFoo : Event :=
  ⟨group0, some venue0, "0", "3", 1481328000000, "Foo, Bar", "7", some "past"⟩

/- Helper lemmas. -/

/-- Every flattened event row has exactly 14 fields. -/
lemma flattenEvent_length (env : TimeEnv) (c st : String) (e : Event) :
    (flattenEvent env c st e).length = 14 := rfl

/-- The comma replacement never leaves a comma in the string. -/
lemma replaceCommas_comma_free (s : String) : ',' ∉ (replaceCommas s).data := by
  simp only [replaceCommas]
  intro h
  rcases List.mem_map.mp h with ⟨c, -, hc⟩
  by_cases hcc : c = ','
  · subst hcc; simp at hc
  · simp [hcc] at hc

/-- A written event line is a 14-field CSV row. -/
lemma isRow14_rowLine (env : TimeEnv) (c st : String) (e : Event) :
    IsRow14 (rowLine env c st e) :=
  ⟨flattenEvent env c st e, rfl, rfl⟩

/-- Every line written for one page is a 14-field CSV row. -/
lemma pageLines_isRow14 (env : TimeEnv) (c st : String) (data : EventsBody) :
    ∀ l ∈ pageLines env c st data, IsRow14 l := by
  intro l hl
  rcases List.mem_map.mp hl with ⟨e, -, rfl⟩
  exact isRow14_rowLine env c st e

/-- consOutcome conses the offset of the current page. -/
lemma offsetsOf_consOutcome (k : Nat) (ls : List String) (o : LoopOutcome) :
    offsetsOf (consOutcome k ls o) = k :: offsetsOf o := by
  cases o <;> rfl

/-- consOutcome prepends the lines of the current page. -/
lemma linesOf_consOutcome (k : Nat) (ls : List String) (o : LoopOutcome) :
    linesOf (consOutcome k ls o) = ls ++ linesOf o := by
  cases o <;> rfl

end Meetup

namespace Meetup

/-- C1: for an events-page request whose first two attempts return HTTP
500 and whose third attempt returns HTTP 200 (attempt budget 3), the code
does NOT process the page: the loop breaks with retry = 3, the check at
line 103 fires, "Giving up!" is printed and exit(200) runs, terminating
the process with exit code 200.  At the run level, the whole run
terminates with exit code 200 right after the header is written. -/
theorem c1_success_on_last_attempt_still_exits :
    requestWithRetry c1Attempts = PageResult.exitWith 200 ∧
    Meetup.main env0 catRespOK c1Net 5 = RunResult.exited 200 [header] :=
  ⟨rfl, rfl⟩

/-- C2: the guard at line 149 compares the header string with the integer
0, which is always False in Python, so on a successful page whose
X-RateLimit-Remaining header is "0" and X-RateLimit-Reset is "5" the loop
does not wait: it issues the request for offset 1 immediately and the
pagination completes normally. -/
theorem c2_rate_limit_guard_never_fires :
    rateLimitHit "0" = false ∧
    paginate env0 cat0 "past" c2Net 5 = LoopOutcome.finished [0, 1] [] :=
  ⟨rfl, rfl⟩

/-- C3: a non-200/non-500 events response does not terminate the process:
exit(404) at line 96 raises SystemExit inside the try block, the bare
except at line 101 catches it, and the next attempt (a 200) succeeds
within the budget; the whole run then completes normally with DONE! and
exit code 0. -/
theorem c3_exit_swallowed_by_bare_except :
    requestWithRetry c3Attempts = PageResult.ok resp200 emptyBody ∧
    Meetup.main env0 catRespOK c3Net 5 = RunResult.done [header] :=
  ⟨rfl, rfl⟩

/-- C4 counterexample: a non-success response whose body is not JSON (as
the source itself notes at line 88 is the case for Meetup 500s) makes
get_categories crash with an uncaught ValueError from response.json() at
line 50 — it neither reports the status nor exits with status 500,
because the body is parsed before the status check. -/
theorem c4_categories_counterexample :
    get_categories ⟨500, none⟩ = CatResult.valueError := rfl

/-- C4 (amended): for every non-success HTTP response whose body parses
as JSON, get_categories reports the status code and the body's details
field and terminates the process with that status as exit code; for every
200 response with a JSON body it returns the list of category records. -/
theorem c4_categories_amended (r : CatResponse) (b : CatBody)
    (hb : r.body = some b) :
    (r.status ≠ 200 → get_categories r = CatResult.exitWith r.status b.details) ∧
    (r.status = 200 → get_categories r = CatResult.ok b.results) := by
  constructor <;> intro hs <;> simp [get_categories, hb, hs]

/-- Witness for C4: a 404 with a JSON body reports and exits 404; a 200
with a JSON body returns the records. -/
theorem c4_categories_witness :
    get_categories ⟨404, some ⟨"nope", []⟩⟩ = CatResult.exitWith 404 "nope" ∧
    get_categories ⟨200, some ⟨"", [⟨1, "Tech"⟩]⟩⟩ = CatResult.ok [⟨1, "Tech"⟩] :=
  ⟨(c4_categories_amended ⟨404, some ⟨"nope", []⟩⟩ ⟨"nope", []⟩ rfl).1 (by decide),
   (c4_categories_amended ⟨200, some ⟨"", [⟨1, "Tech"⟩]⟩⟩ ⟨"", [⟨1, "Tech"⟩]⟩ rfl).2 rfl⟩

/-- C5: the lat/lon fields of a flattened row (positions 4 and 5) are the
venue coordinates when the event record has a venue key, and the group
fallback coordinates otherwise; the choice depends only on the individual
event record. -/
theorem c5_latlon_preference (env : TimeEnv) (catName st : String) (e : Event) :
    (∀ v, e.venue = some v →
      (flattenEvent env catName st e).get? 4 = some v.lat ∧
      (flattenEvent env catName st e).get? 5 = some v.lon) ∧
    (e.venue = none →
      (flattenEvent env catName st e).get? 4 = some e.group.group_lat ∧
      (flattenEvent env catName st e).get? 5 = some e.group.group_lon) := by
  constructor
  · intro v hv
    constructor <;> simp [flattenEvent, hv]
  · intro hv
    constructor <;> simp [flattenEvent, hv]

/-- Witness for C5: with a venue the row carries the venue coordinates;
without one it carries the group coordinates (32.95, -117.10). -/
theorem c5_latlon_witness :
    (flattenEvent env0 "Tech" "past" evWithVenue).get? 4 = some "1.5" ∧
    (flattenEvent env0 "Tech" "past" evNoVenue).get? 4 = some "32.95" ∧
    (flattenEvent env0 "Tech" "past" evNoVenue).get? 5 = some "-117.10" :=
  ⟨((c5_latlon_preference env0 "Tech" "past" evWithVenue).1 venue0 rfl).1,
   ((c5_latlon_preference env0 "Tech" "past" evNoVenue).2 rfl).1,
   ((c5_latlon_preference env0 "Tech" "past" evNoVenue).2 rfl).2⟩

/-- C7: in every flattened row, the group-name field (position 2) and the
event-name field (position 11) get commas replaced by semicolons — the
spec example "Foo, Bar" renders as "Foo; Bar" and the replaced fields are
comma-free — while the other free-form fields (category name, group id,
counts, event id, status) are passed through verbatim. -/
theorem c7_comma_to_semicolon (env : TimeEnv) (catName st : String)
    (e : Event) (s : String) :
    (flattenEvent env catName st e).get? 2 = some (replaceCommas e.group.name) ∧
    (flattenEvent env catName st e).get? 11 = some (replaceCommas e.name) ∧
    replaceCommas "Foo, Bar" = "Foo; Bar" ∧
    ',' ∉ (replaceCommas s).data ∧
    (flattenEvent env catName st e).get? 0 = some catName ∧
    (flattenEvent env catName st e).get? 3 = some e.group.id ∧
    (flattenEvent env catName st e).get? 6 = some e.waitlist_count ∧
    (flattenEvent env catName st e).get? 7 = some e.yes_rsvp_count ∧
    (flattenEvent env catName st e).get? 12 = some e.id ∧
    (flattenEvent env catName st e).get? 13 = some (e.status.getD st) := by
  refine ⟨?_, ?_, rfl, replaceCommas_comma_free s, ?_, ?_, ?_, ?_, ?_, ?_⟩
  all_goals cases hs : e.status <;> simp [flattenEvent, hs]

/-- Witness for C7 at the spec example: the event name "Foo, Bar" renders
as "Foo; Bar" and the category name is passed through verbatim. -/
theorem c7_comma_witness :
    (flattenEvent env0 "Tech" "past" evFoo).get? 11 = some "Foo; Bar" ∧
    (flattenEvent env0 "Tech" "past" evFoo).get? 0 = some "Tech" :=
  ⟨(c7_comma_to_semicolon env0 "Tech" "past" evFoo "").2.1,
   (c7_comma_to_semicolon env0 "Tech" "past" evFoo "").2.2.2.2.1⟩

/-- A finished pagination that starts at offset k with the counters the
loop actually has there (downloadedAfter k, totalAfter k) requested the
consecutive offsets from k, each request was issued while the downloaded
counter was below the current total, and the loop stopped at the first
point where the counter reached the total. -/
lemma paginateAux_finished_spec (env : TimeEnv) (cat : Category) (st : String)
    (net : Nat → Nat → HttpResponse) :
    ∀ (fuel k : Nat) (offs : List Nat) (lines : List String),
      paginateAux env cat st net fuel k (downloadedAfter net k) (totalAfter net k) =
        LoopOutcome.finished offs lines →
      offs = List.range' k offs.length ∧
      (∀ j, k ≤ j → j < k + offs.length → downloadedAfter net j < totalAfter net j) ∧
      totalAfter net (k + offs.length) ≤ downloadedAfter net (k + offs.length) := by
  intro fuel
  induction fuel with
  | zero =>
    intro k offs lines h
    simp [paginateAux] at h
  | succ f ih =>
    intro k offs lines h
    simp only [paginateAux] at h
    by_cases hlt : downloadedAfter net k < totalAfter net k
    · rw [if_pos hlt] at h
      cases hreq : requestWithRetry (net k) with
      | exitWith code =>
        rw [hreq] at h
        simp at h
      | ok response data =>
        rw [hreq] at h
        by_cases hrl : rateLimitHit response.rlRemaining
        · simp only [hrl, if_true] at h
          simp at h
        · simp only [hrl, if_false, Bool.false_eq_true] at h
          have hc : downloadedAfter net k + data.meta.count = downloadedAfter net (k + 1) := by
            simp [downloadedAfter, pageCount, hreq]
          have ht : data.meta.total_count = totalAfter net (k + 1) := by
            simp [totalAfter, pageTotal, hreq]
          rw [hc, ht] at h
          cases hrec : paginateAux env cat st net f (k + 1)
              (downloadedAfter net (k + 1)) (totalAfter net (k + 1)) with
          | finished offs' lines' =>
            rw [hrec] at h
            simp only [consOutcome] at h
            obtain ⟨hoffs, hlines⟩ := LoopOutcome.finished.inj h
            obtain ⟨ih1, ih2, ih3⟩ := ih (k + 1) offs' lines' hrec
            subst hoffs
            refine ⟨?_, ?_, ?_⟩
            · rw [List.length_cons, List.range'_succ k offs'.length 1]
              exact congrArg (k :: ·) ih1
            · intro j hj1 hj2
              rcases Nat.eq_or_lt_of_le hj1 with heq | hlt2
              · rw [← heq]; exact hlt
              · exact ih2 j hlt2 (by simp [List.length_cons] at hj2; omega)
            · have harr : k + (k :: offs').length = (k + 1) + offs'.length := by
                simp [List.length_cons]; omega
              rw [harr]
              exact ih3
          | exited code offs' lines' => rw [hrec] at h; simp [consOutcome] at h
          | typeErrorCrash offs' lines' => rw [hrec] at h; simp [consOutcome] at h
          | outOfFuel offs' lines' => rw [hrec] at h; simp [consOutcome] at h
    · rw [if_neg hlt] at h
      obtain ⟨hoffs, hlines⟩ := LoopOutcome.finished.inj h
      subst hoffs
      refine ⟨rfl, ?_, ?_⟩
      · intro j hj1 hj2; simp at hj2; omega
      · simpa using Nat.le_of_not_lt hlt

/-- C6: a pagination loop that ran to completion issued its page requests
at the strictly increasing offsets 0, 1, 2, ...; each request was issued
while the cumulative downloaded count was still below the server-reported
total current at that point, and the loop stopped exactly when the count
reached or exceeded the total. -/
theorem c6_offsets_strictly_increasing (env : TimeEnv) (cat : Category)
    (st : String) (net : Nat → Nat → HttpResponse) (fuel : Nat)
    (offs : List Nat) (lines : List String)
    (h : paginate env cat st net fuel = LoopOutcome.finished offs lines) :
    offs = List.range offs.length ∧
    (∀ k, k < offs.length → downloadedAfter net k < totalAfter net k) ∧
    totalAfter net offs.length ≤ downloadedAfter net offs.length := by
  have h' : paginateAux env cat st net fuel 0 (downloadedAfter net 0) (totalAfter net 0) =
      LoopOutcome.finished offs lines := h
  obtain ⟨h1, h2, h3⟩ := paginateAux_finished_spec env cat st net fuel 0 offs lines h'
  refine ⟨?_, ?_, ?_⟩
  · rw [List.range_eq_range' offs.length]
    exact h1
  · intro k hk
    exact h2 k (Nat.zero_le k) (by simpa using hk)
  · simpa using h3

/-- Witness for C6: on a network reporting total 2 with one event per
page, the finished run requested offsets [0, 1] = range 2 and stopped
with the downloaded count at the total. -/
theorem c6_offsets_witness :
    ([0, 1] : List Nat) = List.range ([0, 1] : List Nat).length ∧
    totalAfter c6Net ([0, 1] : List Nat).length ≤
      downloadedAfter c6Net ([0, 1] : List Nat).length :=
  ⟨(c6_offsets_strictly_increasing env0 cat0 "past" c6Net 5 [0, 1] [] rfl).1,
   (c6_offsets_strictly_increasing env0 cat0 "past" c6Net 5 [0, 1] [] rfl).2.2⟩

/-- C9: the pagination loop always issues the request for offset 0 (the
total is initialised to 1 at line 80, so the while condition 0 < 1 holds
before any page is seen); and when that first page succeeds and reports
total_count = 0, the loop stops right after that single page. -/
theorem c9_first_page_always_requested (env : TimeEnv) (cat : Category)
    (st : String) (net : Nat → Nat → HttpResponse) (fuel : Nat)
    (hf : 1 ≤ fuel) :
    (offsetsOf (paginate env cat st net fuel)).head? = some 0 ∧
    (∀ r d, requestWithRetry (net 0) = PageResult.ok r d →
      d.meta.total_count = 0 → rateLimitHit r.rlRemaining = false → 2 ≤ fuel →
      paginate env cat st net fuel =
        LoopOutcome.finished [0] (pageLines env cat.name st d)) := by
  obtain ⟨f, rfl⟩ : ∃ f, fuel = f + 1 := ⟨fuel - 1, by omega⟩
  constructor
  · rw [paginate]
    simp only [paginateAux]
    rw [if_pos (by omega : (0 : Nat) < 1)]
    cases hreq : requestWithRetry (net 0) with
    | exitWith code => rfl
    | ok r d =>
      by_cases hrl : rateLimitHit r.rlRemaining
      · simp only [hrl, if_true]; rfl
      · simp only [hrl, if_false, Bool.false_eq_true, offsetsOf_consOutcome]; rfl
  · intro r d hreq htot hrl hf2
    obtain ⟨g, rfl⟩ : ∃ g, f = g + 1 := ⟨f - 1, by omega⟩
    rw [paginate]
    simp only [paginateAux]
    rw [if_pos (by omega : (0 : Nat) < 1), hreq]
    simp only [hrl, if_false, Bool.false_eq_true, htot]
    rw [if_neg (by omega : ¬ (0 + d.meta.count < 0))]
    simp [consOutcome]

/-- Witness for C9: on a network whose first page reports total_count 0,
the loop with fuel 5 requests offset 0 and finishes after that page. -/
theorem c9_witness :
    (offsetsOf (paginate env0 cat0 "past" c9Net 5)).head? = some 0 ∧
    paginate env0 cat0 "past" c9Net 5 =
      LoopOutcome.finished [0] (pageLines env0 cat0.name "past" c9Body) :=
  ⟨(c9_first_page_always_requested env0 cat0 "past" c9Net 5 (by decide)).1,
   (c9_first_page_always_requested env0 cat0 "past" c9Net 5 (by decide)).2
     c9Resp c9Body rfl rfl rfl (by decide)⟩

/-- One successful step of the pagination loop, with the rate-limit guard
not taken. -/
lemma paginateAux_step_ok (env : TimeEnv) (cat : Category) (st : String)
    (net : Nat → Nat → HttpResponse) (fuel offset downloaded total : Nat)
    (r : HttpResponse) (d : EventsBody)
    (hlt : downloaded < total)
    (hreq : requestWithRetry (net offset) = PageResult.ok r d)
    (hrl : rateLimitHit r.rlRemaining = false) :
    paginateAux env cat st net (fuel + 1) offset downloaded total =
      consOutcome offset (pageLines env cat.name st d)
        (paginateAux env cat st net fuel (offset + 1)
          (downloaded + d.meta.count) d.meta.total_count) := by
  simp only [paginateAux]
  rw [if_pos hlt, hreq]
  simp [hrl]

/-- The pagination loop stops as soon as the downloaded counter is not
below the total. -/
lemma paginateAux_stop (env : TimeEnv) (cat : Category) (st : String)
    (net : Nat → Nat → HttpResponse) (fuel offset downloaded total : Nat)
    (hge : ¬ downloaded < total) :
    paginateAux env cat st net (fuel + 1) offset downloaded total =
      LoopOutcome.finished [] [] := by
  simp only [paginateAux]
  rw [if_neg hge]

/-- When every page request succeeds, adds at least one event and reports
the constant total T, a loop state whose remaining distance to T is
covered by the fuel finishes, requesting at most f more pages. -/
lemma paginateAux_terminates (env : TimeEnv) (cat : Category) (st : String)
    (net : Nat → Nat → HttpResponse) (resp : Nat → HttpResponse)
    (data : Nat → EventsBody) (T : Nat)
    (hreq : ∀ i, requestWithRetry (net i) = PageResult.ok (resp i) (data i))
    (hcnt : ∀ i, 1 ≤ (data i).meta.count)
    (htot : ∀ i, (data i).meta.total_count = T)
    (hrl : ∀ i, rateLimitHit (resp i).rlRemaining = false) :
    ∀ (f k d : Nat), T ≤ d + f →
      ∃ offs lines,
        paginateAux env cat st net (f + 1) k d T = LoopOutcome.finished offs lines ∧
        offs.length ≤ f := by
  intro f
  induction f with
  | zero =>
    intro k d hd
    exact ⟨[], [], paginateAux_stop env cat st net 0 k d T (by omega), by simp⟩
  | succ f ih =>
    intro k d hd
    by_cases hlt : d < T
    · obtain ⟨offs, lines, hrec, hlen⟩ :=
        ih (k + 1) (d + (data k).meta.count) (by have := hcnt k; omega)
      refine ⟨k :: offs, pageLines env cat.name st (data k) ++ lines, ?_, by simp; omega⟩
      rw [paginateAux_step_ok env cat st net (f + 1) k d T (resp k) (data k)
        hlt (hreq k) (hrl k), htot k, hrec]
      rfl
    · exact ⟨[], [], paginateAux_stop env cat st net (f + 1) k d T hlt, by simp⟩

/-- When every page request succeeds with zero events per page while
reporting a positive constant total t, any loop state with the downloaded
counter below both the current total and t never finishes: every fuel
bound is exhausted. -/
lemma paginateAux_diverges (env : TimeEnv) (cat : Category) (st : String)
    (net : Nat → Nat → HttpResponse) (resp : Nat → HttpResponse)
    (data : Nat → EventsBody) (t : Nat)
    (hreq : ∀ i, requestWithRetry (net i) = PageResult.ok (resp i) (data i))
    (hcnt : ∀ i, (data i).meta.count = 0)
    (htot : ∀ i, (data i).meta.total_count = t)
    (hrl : ∀ i, rateLimitHit (resp i).rlRemaining = false) :
    ∀ (f k d tt : Nat), d < tt → d < t →
      ∃ offs lines,
        paginateAux env cat st net f k d tt = LoopOutcome.outOfFuel offs lines := by
  intro f
  induction f with
  | zero => intro k d tt h1 h2; exact ⟨[], [], rfl⟩
  | succ f ih =>
    intro k d tt h1 h2
    obtain ⟨offs, lines, hrec⟩ :=
      ih (k + 1) (d + (data k).meta.count) t (by rw [hcnt k]; omega) (by rw [hcnt k]; omega)
    refine ⟨k :: offs, pageLines env cat.name st (data k) ++ lines, ?_⟩
    rw [paginateAux_step_ok env cat st net f k d tt (resp k) (data k)
      h1 (hreq k) (hrl k), htot k, hrec]
    rfl

/-- C10: (1) if every successful page reports at least one event and the
constant server total T ≥ 1, the pagination loop terminates, requesting
at most T pages (fuel T + 1 covers the requests plus the final condition
check); (2) if every successful page reports zero events while the
reported total stays at some t ≥ 1, the loop never finishes — every fuel
bound is exhausted, i.e. the while loop runs forever. -/
theorem c10_termination_and_divergence (env : TimeEnv) (cat : Category) (st : String) :
    (∀ (net resp : Nat → Nat → HttpResponse) (data : Nat → EventsBody) (T : Nat),
      (∀ i, requestWithRetry (net i) = PageResult.ok (resp i 0) (data i)) →
      (∀ i, 1 ≤ (data i).meta.count) →
      (∀ i, (data i).meta.total_count = T) →
      (∀ i, rateLimitHit (resp i 0).rlRemaining = false) →
      1 ≤ T →
      ∃ offs lines,
        paginate env cat st net (T + 1) = LoopOutcome.finished offs lines ∧
        offs.length ≤ T) ∧
    (∀ (net resp : Nat → Nat → HttpResponse) (data : Nat → EventsBody) (t : Nat),
      (∀ i, requestWithRetry (net i) = PageResult.ok (resp i 0) (data i)) →
      (∀ i, (data i).meta.count = 0) →
      (∀ i, (data i).meta.total_count = t) →
      (∀ i, rateLimitHit (resp i 0).rlRemaining = false) →
      1 ≤ t →
      ∀ fuel, ∃ offs lines,
        paginate env cat st net fuel = LoopOutcome.outOfFuel offs lines) := by
  constructor
  · intro net resp data T hreq hcnt htot hrl hT
    obtain ⟨S, rfl⟩ : ∃ S, T = S + 1 := ⟨T - 1, by omega⟩
    obtain ⟨offs, lines, hrec, hlen⟩ :=
      paginateAux_terminates env cat st net (fun i => resp i 0) data (S + 1)
        hreq hcnt htot hrl S 1 (0 + (data 0).meta.count) (by have := hcnt 0; omega)
    refine ⟨0 :: offs, pageLines env cat.name st (data 0) ++ lines, ?_, by simp; omega⟩
    rw [paginate, paginateAux_step_ok env cat st net (S + 1) 0 0 1 (resp 0 0) (data 0)
      (by omega) (hreq 0) (hrl 0), htot 0, hrec]
    rfl
  · intro net resp data t hreq hcnt htot hrl ht fuel
    cases fuel with
    | zero => exact ⟨[], [], rfl⟩
    | succ f =>
      obtain ⟨offs, lines, hrec⟩ :=
        paginateAux_diverges env cat st net (fun i => resp i 0) data t
          hreq hcnt htot hrl f 1 (0 + (data 0).meta.count) t
          (by rw [hcnt 0]; omega) (by rw [hcnt 0]; omega)
      refine ⟨0 :: offs, pageLines env cat.name st (data 0) ++ lines, ?_⟩
      rw [paginate, paginateAux_step_ok env cat st net f 0 0 1 (resp 0 0) (data 0)
        (by omega) (hreq 0) (hrl 0), htot 0, hrec]
      rfl

/-- Witness for C10: with one event per page and total 2 the loop
finishes within fuel 3 after at most 2 pages; with zero events per page
and total 5 it is still running when a fuel of 4 runs out. -/
theorem c10_witness :
    isFinished (paginate env0 cat0 "past" c6Net (2 + 1)) = true ∧
    (offsetsOf (paginate env0 cat0 "past" c6Net (2 + 1))).length ≤ 2 ∧
    isOutOfFuel (paginate env0 cat0 "past" c10ZeroNet 4) = true := by
  obtain ⟨offs, lines, heq, hlen⟩ :=
    (c10_termination_and_divergence env0 cat0 "past").1 c6Net c6Net
      (fun _ => body12) 2 (fun _ => rfl) (fun _ => Nat.le_refl 1) (fun _ => rfl)
      (fun _ => rfl) (by decide)
  obtain ⟨offs2, lines2, heq2⟩ :=
    (c10_termination_and_divergence env0 cat0 "past").2 c10ZeroNet c10ZeroNet
      (fun _ => c10ZeroBody) 5 (fun i => rfl) (fun i => rfl) (fun i => rfl)
      (fun i => rfl) (by decide) 4
  refine ⟨?_, ?_, ?_⟩
  · rw [heq]; rfl
  · rw [heq]; simpa [offsetsOf] using hlen
  · rw [heq2]; rfl

/-- Every line written by the pagination loop is a 14-field CSV row. -/
lemma paginateAux_lines_isRow14 (env : TimeEnv) (cat : Category) (st : String)
    (net : Nat → Nat → HttpResponse) :
    ∀ (fuel k d t : Nat),
      ∀ l ∈ linesOf (paginateAux env cat st net fuel k d t), IsRow14 l := by
  intro fuel
  induction fuel with
  | zero => intro k d t l hl; simp [paginateAux, linesOf] at hl
  | succ f ih =>
    intro k d t l hl
    simp only [paginateAux] at hl
    by_cases hlt : d < t
    · rw [if_pos hlt] at hl
      cases hreq : requestWithRetry (net k) with
      | exitWith code =>
        rw [hreq] at hl
        simp [linesOf] at hl
      | ok r dta =>
        rw [hreq] at hl
        by_cases hrl : rateLimitHit r.rlRemaining
        · simp only [hrl, if_true, linesOf] at hl
          exact pageLines_isRow14 env cat.name st dta l hl
        · simp only [hrl, if_false, Bool.false_eq_true, linesOf_consOutcome] at hl
          rcases List.mem_append.mp hl with h1 | h2
          · exact pageLines_isRow14 env cat.name st dta l h1
          · exact ih (k + 1) (d + dta.meta.count) dta.meta.total_count l h2
    · rw [if_neg hlt] at hl
      simp [linesOf] at hl

/-- Every line written by a full pagination run is a 14-field CSV row. -/
lemma paginate_lines_isRow14 (env : TimeEnv) (cat : Category) (st : String)
    (netp : Nat → Nat → HttpResponse) (fuel : Nat) :
    ∀ l ∈ linesOf (paginate env cat st netp fuel), IsRow14 l := fun l hl =>
  paginateAux_lines_isRow14 env cat st netp fuel 0 0 1 l hl

/-- Prepending lines keeps membership within the prepended lines plus the
rest. -/
lemma runLines_prependLines (ls : List String) (r : RunResult) :
    ∀ l ∈ runLines (prependLines ls r), l ∈ ls ++ runLines r := by
  cases r <;> simp [prependLines, runLines]

/-- Every line in the file body produced by the nested category/status
loops is a 14-field CSV row. -/
lemma runLoop_lines_isRow14 (env : TimeEnv)
    (net : Nat → String → Nat → Nat → HttpResponse) (fuel : Nat) :
    ∀ (pairs : List (Category × String)),
      ∀ l ∈ runLines (runLoop env net fuel pairs), IsRow14 l := by
  intro pairs
  induction pairs with
  | nil => intro l hl; simp [runLoop, runLines] at hl
  | cons p rest ih =>
    obtain ⟨cat, st⟩ := p
    intro l hl
    simp only [runLoop] at hl
    cases hp : paginate env cat st (net cat.id st) fuel with
    | finished offs lines =>
      rw [hp] at hl
      rcases List.mem_append.mp (runLines_prependLines lines _ l hl) with h1 | h2
      · exact paginate_lines_isRow14 env cat st (net cat.id st) fuel l (by rw [hp]; exact h1)
      · exact ih l h2
    | exited code offs lines =>
      rw [hp] at hl
      exact paginate_lines_isRow14 env cat st (net cat.id st) fuel l
        (by rw [hp]; simpa [linesOf, runLines] using hl)
    | typeErrorCrash offs lines =>
      rw [hp] at hl
      exact paginate_lines_isRow14 env cat st (net cat.id st) fuel l
        (by rw [hp]; simpa [linesOf, runLines] using hl)
    | outOfFuel offs lines =>
      rw [hp] at hl
      exact paginate_lines_isRow14 env cat st (net cat.id st) fuel l
        (by rw [hp]; simpa [linesOf, runLines] using hl)

/-- C8: in every normally completed run, the file starts with the fixed
header row (written exactly once, before any data row), the header has
exactly 14 comma-joined column names, every later line of the file is a
newline-terminated row of exactly 14 comma-joined fields, and each page
contributes exactly one row per event. -/
theorem c8_writer_contract (env : TimeEnv) (catResp : CatResponse)
    (net : Nat → String → Nat → Nat → HttpResponse) (fuel : Nat)
    (lines : List String)
    (h : Meetup.main env catResp net fuel = RunResult.done lines) :
    lines.head? = some header ∧
    headerFields.length = 14 ∧
    header = String.intercalate "," headerFields ++ "\n" ∧
    (∀ l ∈ lines.tail, IsRow14 l) ∧
    (∀ catName st data, (pageLines env catName st data).length = data.results.length) ∧
    (∀ catName st e, (flattenEvent env catName st e).length = 14) := by
  have hmain := h
  simp only [main] at hmain
  split at hmain
  · simp at hmain
  · simp at hmain
  · next cats hc =>
    cases hr : runLoop env net fuel (pairsOf cats) with
    | done ls =>
      rw [hr] at hmain
      simp only [prependLines] at hmain
      have hll : [header] ++ ls = lines := RunResult.done.inj hmain
      subst hll
      refine ⟨rfl, rfl, rfl, ?_, ?_, fun catName st e => rfl⟩
      · intro l hl
        exact runLoop_lines_isRow14 env net fuel (pairsOf cats) l (by rw [hr]; exact hl)
      · intro catName st data
        simp [pageLines]
    | exited code ls => rw [hr] at hmain; simp [prependLines] at hmain
    | typeErrorCrash ls => rw [hr] at hmain; simp [prependLines] at hmain
    | valueErrorCrash => rw [hr] at hmain; simp [prependLines] at hmain
    | outOfFuel ls => rw [hr] at hmain; simp [prependLines] at hmain

/-- Witness for C8: a run over one category with empty pages produces a
file whose first (and only) line is the header of 14 column names. -/
theorem c8_writer_witness :
    ([header] : List String).head? = some header ∧ headerFields.length = 14 :=
  ⟨(c8_writer_contract env0 catRespOK doneNet 5 [header] rfl).1,
   (c8_writer_contract env0 catRespOK doneNet 5 [header] rfl).2.1⟩

end Meetup
